import Mathlib

/-!
Verification of `AutomaterializeDaemonStatusTag.tsx`
(dagster-ui, `packages/ui-core/src/assets/AutomaterializeDaemonStatusTag.tsx`).

The component is a stateless presentational function: it reads a boolean
`paused` from the collaborator hook `useAutomaterializeDaemonStatus` and
renders a `Tooltip` wrapping a `Link` wrapping a `Tag`.  We embed the
rendered element tree as a record of the semantic props the component
supplies to its three collaborator elements, and the render itself as a
pure function of `paused`.
-/

/-- Props passed to the `Tooltip` element: its text `content` and the
`canShow` gate. -/
structure TooltipProps where
  content : String
  canShow : Bool
deriving Repr, DecidableEq

/-- Props passed to the `Link` element: the navigation target `to` and the
inline style's `outline` value. -/
structure LinkProps where
  «to» : String
  outlineStyle : String
deriving Repr, DecidableEq

/-- Props passed to the `Tag` element: `icon`, `intent`, and the child
label text. -/
structure TagProps where
  icon : String
  intent : String
  label : String
deriving Repr, DecidableEq

/-- The full rendered element tree of the component: a Tooltip containing
a Link containing a Tag. -/
structure RenderOutput where
  tooltip : TooltipProps
  link : LinkProps
  tag : TagProps
deriving Repr, DecidableEq

/-- The fixed explanatory tooltip message used when `paused` is true
(string literal at lines 12-13 of the source). -/
def pausedTooltipMessage : String :=
  "Automation condition evaluation is paused. New materializations will not be triggered by automation conditions."

/-- The render body of `AutomaterializeDaemonStatusTag` as a function of
the boolean `paused` extracted from the status hook.  Each field is a
direct transcription of the corresponding JSX prop (lines 9-24 of the
source). -/
def renderAutomaterializeDaemonStatusTag (paused : Bool) : RenderOutput :=
  { tooltip :=
      { content := if paused then pausedTooltipMessage else ""
        canShow := paused }
    link :=
      { «to» := "/health"
        outlineStyle := "none" }
    tag :=
      { icon := if paused then "toggle_off" else "toggle_on"
        intent := if paused then "warning" else "success"
        label := if paused then "Auto-materialize off" else "Auto-materialize on" } }

/-- Modelled from the spec: the hook `useAutomaterializeDaemonStatus` is
not part of the provided sources; per the spec (section 6) it "must expose
a capability returning an object with a field `paused: boolean`".  We
model its result as that boolean field together with arbitrary further
fields, represented as a list of key/value pairs. -/
structure DaemonStatusResult where
  paused : Bool
  otherFields : List (String × String)
deriving Repr, DecidableEq

/-- The component `AutomaterializeDaemonStatusTag` applied to a hook
result: line 7 of the source destructures only `paused` from the hook's
return value and the render uses nothing else. -/
def AutomaterializeDaemonStatusTag (status : DaemonStatusResult) : RenderOutput :=
  renderAutomaterializeDaemonStatusTag status.paused

/-- C1: for every boolean `paused`, the Tooltip receives `canShow = paused`,
and its `content` is the fixed warning string when `paused` is true and the
empty string when `paused` is false. -/
theorem C1_tooltip_props (paused : Bool) :
    (renderAutomaterializeDaemonStatusTag paused).tooltip.canShow = paused ∧
    (renderAutomaterializeDaemonStatusTag paused).tooltip.content =
      (if paused then
        "Automation condition evaluation is paused. New materializations will not be triggered by automation conditions."
      else "") := by
  cases paused <;> exact ⟨rfl, rfl⟩

/-- C2: for every boolean `paused`, the rendered label is
"Auto-materialize off" iff `paused` is true, and "Auto-materialize on" iff
`paused` is false. -/
theorem C2_label (paused : Bool) :
    ((renderAutomaterializeDaemonStatusTag paused).tag.label =
        "Auto-materialize off" ↔ paused = true) ∧
    ((renderAutomaterializeDaemonStatusTag paused).tag.label =
        "Auto-materialize on" ↔ paused = false) := by
  cases paused <;> constructor <;> constructor <;> intro h <;>
    first | rfl | exact absurd h (by decide)

/-- C3: for every boolean `paused`, the Tag's icon is "toggle_off" when
`paused` is true and "toggle_on" when `paused` is false. -/
theorem C3_icon (paused : Bool) :
    (renderAutomaterializeDaemonStatusTag paused).tag.icon =
      (if paused then "toggle_off" else "toggle_on") := by
  cases paused <;> rfl

/-- C4: for every boolean `paused`, the Tag's intent is "warning" when
`paused` is true and "success" when `paused` is false. -/
theorem C4_intent (paused : Bool) :
    (renderAutomaterializeDaemonStatusTag paused).tag.intent =
      (if paused then "warning" else "success") := by
  cases paused <;> rfl

/-- C5: for every boolean `paused`, the Link's `to` prop is the literal
path "/health", independent of `paused`. -/
theorem C5_link_target (paused : Bool) :
    (renderAutomaterializeDaemonStatusTag paused).link.«to» = "/health" := by
  cases paused <;> rfl

/-- C6: the two concrete end-to-end scenarios: `paused = true` yields the
paused output in full, and `paused = false` yields the unpaused output in
full. -/
theorem C6_scenarios :
    renderAutomaterializeDaemonStatusTag true =
      { tooltip :=
          { content :=
              "Automation condition evaluation is paused. New materializations will not be triggered by automation conditions."
            canShow := true }
        link := { «to» := "/health", outlineStyle := "none" }
        tag :=
          { icon := "toggle_off", intent := "warning",
            label := "Auto-materialize off" } } ∧
    renderAutomaterializeDaemonStatusTag false =
      { tooltip := { content := "", canShow := false }
        link := { «to» := "/health", outlineStyle := "none" }
        tag :=
          { icon := "toggle_on", intent := "success",
            label := "Auto-materialize on" } } :=
  ⟨rfl, rfl⟩

/-- C7: the render is a deterministic pure function of the current boolean
`paused`: two renders with the same value of `paused` produce identical
output. -/
theorem C7_deterministic (p q : Bool) (h : p = q) :
    renderAutomaterializeDaemonStatusTag p =
      renderAutomaterializeDaemonStatusTag q := by
  rw [h]

/-- Witness for C7 at a concrete input. -/
theorem C7_deterministic_witness :
    renderAutomaterializeDaemonStatusTag true =
      renderAutomaterializeDaemonStatusTag true :=
  C7_deterministic true true rfl

/-- C8: for every boolean `paused`, the rendered Link carries the style
`outline: none`. -/
theorem C8_outline (paused : Bool) :
    (renderAutomaterializeDaemonStatusTag paused).link.outlineStyle = "none" := by
  cases paused <;> rfl

/-- C9: coupling invariant: the intent is "warning" iff the icon is
"toggle_off" iff the label is "Auto-materialize off" iff the tooltip's
`canShow` is true iff the tooltip content is non-empty. -/
theorem C9_coupling (paused : Bool) :
    ((renderAutomaterializeDaemonStatusTag paused).tag.intent = "warning" ↔
      (renderAutomaterializeDaemonStatusTag paused).tag.icon = "toggle_off") ∧
    ((renderAutomaterializeDaemonStatusTag paused).tag.icon = "toggle_off" ↔
      (renderAutomaterializeDaemonStatusTag paused).tag.label =
        "Auto-materialize off") ∧
    ((renderAutomaterializeDaemonStatusTag paused).tag.label =
        "Auto-materialize off" ↔
      (renderAutomaterializeDaemonStatusTag paused).tooltip.canShow = true) ∧
    ((renderAutomaterializeDaemonStatusTag paused).tooltip.canShow = true ↔
      (renderAutomaterializeDaemonStatusTag paused).tooltip.content ≠ "") := by
  cases paused <;> decide

/-- C10: noninterference: the rendered output depends only on the `paused`
field of the hook's result; any two results agreeing on `paused` render
identically. -/
theorem C10_noninterference (s₁ s₂ : DaemonStatusResult)
    (h : s₁.paused = s₂.paused) :
    AutomaterializeDaemonStatusTag s₁ = AutomaterializeDaemonStatusTag s₂ := by
  unfold AutomaterializeDaemonStatusTag
  rw [h]

/-- Witness for C10: two hook results that agree on `paused` but differ in
their other fields render identically. -/
theorem C10_noninterference_witness :
    AutomaterializeDaemonStatusTag ⟨true, [("sensorInterval", "30")]⟩ =
      AutomaterializeDaemonStatusTag ⟨true, []⟩ :=
  C10_noninterference ⟨true, [("sensorInterval", "30")]⟩ ⟨true, []⟩ rfl
